import Mathlib

/-!
Verification development for the folonet repository: a shallow embedding of
the datapath (folonet-ebpf/src/main.rs), the per-peer TCP state machine
(folonet/src/state/tcp.rs), the close handler (folonet/src/state/mod.rs),
the cold-start controller and idle monitor (folonet/src/main.rs), the
userspace Connection key (folonet/src/endpoint.rs) and the checksum helper
(folonet-common/src/lib.rs), together with theorems settling the stated
properties of the specification against this embedding.
-/

namespace Folonet

/-! ## Association-list maps

The eBPF `HashMap` / userspace `HashMap` handles are modelled as association
lists.  `alookup` is `get`, `ainsertReplace` is an always-succeeding insert
(update in place when the key exists), and `mapInsert` is the bounded eBPF
insert: it updates an existing key, appends while below capacity, and fails
(returns `none`) on a full map, mirroring the error path of
`HashMap::insert` in the kernel program. -/

def alookup {α β : Type} [DecidableEq α] : List (α × β) → α → Option β
  | [], _ => none
  | (k, v) :: rest, key => if k = key then some v else alookup rest key

def ainsertReplace {α β : Type} [DecidableEq α] : List (α × β) → α → β → List (α × β)
  | [], key, val => [(key, val)]
  | (k, v) :: rest, key, val =>
      if k = key then (key, val) :: rest else (k, v) :: ainsertReplace rest key val

def mapInsert {α β : Type} [DecidableEq α] (cap : Nat) (m : List (α × β)) (key : α) (val : β) :
    Option (List (α × β)) :=
  if (alookup m key).isSome then some (ainsertReplace m key val)
  else if m.length < cap then some (m ++ [(key, val)]) else none

/-! ## Kernel-side data model (folonet-common/src/lib.rs)

`KEndpoint` packs an IPv4 address and a port (network byte order on the
wire; the byte order is immaterial to the properties proved here, so both
fields are plain naturals).  `KConnection` is the directional flow 4-tuple;
the Rust field names `from`/`to` are Lean keywords, hence `efrom`/`eto`. -/

structure KEndpoint where
  ip : Nat
  port : Nat
deriving DecidableEq, Repr

structure KConnection where
  efrom : KEndpoint
  eto : KEndpoint
deriving DecidableEq, Repr

def KConnection.reverse (c : KConnection) : KConnection :=
  { efrom := c.eto, eto := c.efrom }

/-! ## The per-peer TCP state machine (folonet/src/state/tcp.rs, state_machine! block) -/

inductive TCPState where
  | Closed | Listen | ListenReceiveSyn | SynSent | SynSentReceiveSyn
  | ReceiveSynAckReceiveSynAck | SynReceived | Established | CloseWait
  | LastAck | FinWait1 | FinWait1ReceiveFin | FinWait2 | FinWait2ReceiveFin
  | Closing | TimeWait
deriving DecidableEq, Repr

inductive TCPInput where
  | PassiveOpen | SendSyn | ReceiveSyn | SendSynAck | ReceiveSynAck
  | SendAckForSyn | RecvAckForSyn | SendFin | ReceiveFin | SendAckForFin
  | RecvAckForFin | TimeExpired
deriving DecidableEq, Repr

/-- Transition table generated by the `state_machine!` macro in
folonet/src/state/tcp.rs lines 17-60: `none` means no transition is defined
for the pair. -/
def TCP.transition : TCPState → TCPInput → Option TCPState
  | .Closed, .PassiveOpen => some .Listen
  | .Closed, .SendSyn => some .SynSent
  | .Listen, .ReceiveSyn => some .ListenReceiveSyn
  | .ListenReceiveSyn, .SendSynAck => some .SynReceived
  | .SynSent, .ReceiveSyn => some .SynSentReceiveSyn
  | .SynSent, .ReceiveSynAck => some .ReceiveSynAckReceiveSynAck
  | .SynSentReceiveSyn, .SendAckForSyn => some .SynReceived
  | .ReceiveSynAckReceiveSynAck, .SendAckForSyn => some .Established
  | .SynReceived, .RecvAckForSyn => some .Established
  | .Established, .SendFin => some .FinWait1
  | .Established, .ReceiveFin => some .CloseWait
  | .CloseWait, .SendFin => some .LastAck
  | .LastAck, .RecvAckForFin => some .Closed
  | .FinWait1, .RecvAckForFin => some .FinWait2
  | .FinWait1, .ReceiveFin => some .FinWait1ReceiveFin
  | .FinWait1ReceiveFin, .SendAckForFin => some .Closing
  | .FinWait2, .ReceiveFin => some .FinWait2ReceiveFin
  | .FinWait2ReceiveFin, .SendAckForFin => some .TimeWait
  | .Closing, .RecvAckForFin => some .TimeWait
  | .TimeWait, .TimeExpired => some .Closed
  | _, _ => none

/-- Semantics of rust_fsm `StateMachine::consume`: on a defined transition
the machine moves; on an undefined pair it returns `Err(TransitionImpossible)`
and the state is unchanged. -/
def TCP.consume (s : TCPState) (i : TCPInput) : TCPState :=
  (TCP.transition s i).getD s

/-- `TcpFsmState::new` (folonet/src/state/tcp.rs lines 125-137): the machine
starts at `Closed` (macro header `pub TCP(Closed)`) and, for a server-side
endpoint, a `PassiveOpen` input is consumed at construction. -/
def tcp_fsm_new (isServerSide : Bool) : TCPState :=
  if isServerSide then TCP.consume .Closed .PassiveOpen else .Closed

/-- The transition relation exactly as listed in the specification (the
sentence list of claim C2), one triple per listed arrow. -/
def claim_transitions : List (TCPState × TCPInput × TCPState) :=
  [ (.Closed, .PassiveOpen, .Listen),
    (.Closed, .SendSyn, .SynSent),
    (.Listen, .ReceiveSyn, .ListenReceiveSyn),
    (.ListenReceiveSyn, .SendSynAck, .SynReceived),
    (.SynSent, .ReceiveSyn, .SynSentReceiveSyn),
    (.SynSentReceiveSyn, .SendAckForSyn, .SynReceived),
    (.SynSent, .ReceiveSynAck, .ReceiveSynAckReceiveSynAck),
    (.ReceiveSynAckReceiveSynAck, .SendAckForSyn, .Established),
    (.SynReceived, .RecvAckForSyn, .Established),
    (.Established, .SendFin, .FinWait1),
    (.Established, .ReceiveFin, .CloseWait),
    (.CloseWait, .SendFin, .LastAck),
    (.LastAck, .RecvAckForFin, .Closed),
    (.FinWait1, .RecvAckForFin, .FinWait2),
    (.FinWait2, .ReceiveFin, .FinWait2ReceiveFin),
    (.FinWait2ReceiveFin, .SendAckForFin, .TimeWait),
    (.FinWait1, .ReceiveFin, .FinWait1ReceiveFin),
    (.FinWait1ReceiveFin, .SendAckForFin, .Closing),
    (.Closing, .RecvAckForFin, .TimeWait),
    (.TimeWait, .TimeExpired, .Closed) ]

/-- Step function induced by the listed relation: move along a listed arrow,
stay put when no listed arrow matches the pair. -/
def claim_step (s : TCPState) (i : TCPInput) : TCPState :=
  match claim_transitions.find? (fun t => decide (t.1 = s) && decide (t.2.1 = i)) with
  | some t => t.2.2
  | none => s

/-! ## Input derivation from observed packets (folonet/src/state/tcp.rs)

A `Packet` carries the three tracked flags and the sequence numbers
(folonet-common/src/event.rs `Packet` with `PacketFlag` bitset, here three
booleans; `seq` and `ack_seq` are u32 fields).  `SpecialPacket` is the
remembered SYN/FIN with its sequence number.  The comparisons
`seq + 1 == packet.ack_seq` in tcp.rs are u32 additions and wrap at
4294967295, hence the explicit modulus 4294967296 below. -/

structure Packet where
  syn : Bool
  fin : Bool
  ack : Bool
  ackSeq : Nat
  seq : Nat
deriving DecidableEq, Repr

inductive SpecialPacket where
  | SYN (seq : Nat)
  | FIN (seq : Nat)
deriving DecidableEq, Repr

/-- `TcpFsmState::check_send_input` (tcp.rs lines 248-281): inputs derived
for a packet flowing from the peer, pushed in the order of the Rust code
(ACK-derived rule first, then the SYN rules, then FIN). -/
def check_send_input (received : Option SpecialPacket) (p : Packet) : List TCPInput :=
  let inputs : List TCPInput := []
  let inputs :=
    if p.ack then
      match received with
      | some (.FIN s) => if (s + 1) % 4294967296 = p.ackSeq then inputs ++ [.SendAckForFin] else inputs
      | some (.SYN s) => if (s + 1) % 4294967296 = p.ackSeq then inputs ++ [.SendAckForSyn] else inputs
      | none => inputs
    else inputs
  let inputs :=
    if p.syn then
      if p.ack then inputs ++ [.SendSynAck] else inputs ++ [.SendSyn]
    else inputs
  if p.fin then inputs ++ [.SendFin] else inputs

/-- `TcpFsmState::check_receive_input` (tcp.rs lines 213-246): inputs derived
for a packet flowing to the peer, pushed in the order of the Rust code
(ACK-derived rule, then FIN, then SYN; inside the ACK rule a remembered SYN
with matching ack produces `ReceiveSynAck` when the packet also carries SYN,
and `RecvAckForSyn` otherwise). -/
def check_receive_input (sent : Option SpecialPacket) (p : Packet) : List TCPInput :=
  let inputs : List TCPInput := []
  let inputs :=
    if p.ack then
      match sent with
      | some (.FIN s) => if (s + 1) % 4294967296 = p.ackSeq then inputs ++ [.RecvAckForFin] else inputs
      | some (.SYN s) =>
          if (s + 1) % 4294967296 = p.ackSeq then
            if p.syn then inputs ++ [.ReceiveSynAck] else inputs ++ [.RecvAckForSyn]
          else inputs
      | none => inputs
    else inputs
  let inputs := if p.fin then inputs ++ [.ReceiveFin] else inputs
  if p.syn then inputs ++ [.ReceiveSyn] else inputs

/-- Send-side derivation rules exactly as worded in the specification and
claim C3: the ACK rules against `ReceivedSpecial` (ack_seq equal to s+1,
the u32 successor, which wraps at 4294967295), then SYN-and-ACK gives
`SendSynAck`, SYN alone gives `SendSyn`, FIN gives `SendFin`. -/
def spec_send_input (received : Option SpecialPacket) (p : Packet) : List TCPInput :=
  let ackRule : List TCPInput :=
    match received, p.ack with
    | some (.FIN s), true => if (s + 1) % 4294967296 = p.ackSeq then [.SendAckForFin] else []
    | some (.SYN s), true => if (s + 1) % 4294967296 = p.ackSeq then [.SendAckForSyn] else []
    | _, _ => []
  let synRule : List TCPInput :=
    if p.syn && p.ack then [.SendSynAck] else if p.syn then [.SendSyn] else []
  let finRule : List TCPInput := if p.fin then [.SendFin] else []
  ackRule ++ synRule ++ finRule

/-- Receive-side derivation as claim C3 words it: the exact mirror of the
send side, with `SentSpecial` in place of `ReceivedSpecial` and the inputs
RecvAckForFin / RecvAckForSyn / ReceiveSynAck / ReceiveSyn / ReceiveFin in
place of their send counterparts. -/
def claim_receive_input_symmetric (sent : Option SpecialPacket) (p : Packet) : List TCPInput :=
  let ackRule : List TCPInput :=
    match sent, p.ack with
    | some (.FIN s), true => if (s + 1) % 4294967296 = p.ackSeq then [.RecvAckForFin] else []
    | some (.SYN s), true => if (s + 1) % 4294967296 = p.ackSeq then [.RecvAckForSyn] else []
    | _, _ => []
  let synRule : List TCPInput :=
    if p.syn && p.ack then [.ReceiveSynAck] else if p.syn then [.ReceiveSyn] else []
  let finRule : List TCPInput := if p.fin then [.ReceiveFin] else []
  ackRule ++ synRule ++ finRule

/-- Receive-side derivation rules as the code actually implements them (the
amended reading of claim C3): the ACK rule distinguishes on the SYN flag and
yields `ReceiveSynAck` only there; every FIN packet yields `ReceiveFin`,
every SYN packet yields `ReceiveSyn`, in the order ACK-rule, FIN, SYN. -/
def amended_receive_input (sent : Option SpecialPacket) (p : Packet) : List TCPInput :=
  let ackRule : List TCPInput :=
    match sent, p.ack with
    | some (.FIN s), true => if (s + 1) % 4294967296 = p.ackSeq then [.RecvAckForFin] else []
    | some (.SYN s), true =>
        if (s + 1) % 4294967296 = p.ackSeq then
          if p.syn then [.ReceiveSynAck] else [.RecvAckForSyn]
        else []
    | _, _ => []
  let finRule : List TCPInput := if p.fin then [.ReceiveFin] else []
  let synRule : List TCPInput := if p.syn then [.ReceiveSyn] else []
  ackRule ++ finRule ++ synRule

/-! ## Checksum helper (folonet-common/src/lib.rs lines 122-144)

`csum_fold_helper` folds a wide one's-complement sum into 16 bits with five
unrolled conditional folds (eBPF forbids a loop) and returns the bitwise
complement truncated to 16 bits.  The shift `csum >> 16` is division by
65536 and the mask `csum & 0xFFFF` is the remainder. -/

def fold_once (c : Nat) : Nat :=
  if 65536 ≤ c then c % 65536 + c / 65536 else c

def csum_fold_helper (csum : Nat) : Nat :=
  let c := fold_once (fold_once (fold_once (fold_once (fold_once csum))))
  65535 - c % 65536

/-- Full one's-complement fold: repeat the carry fold until the value fits
in 16 bits.  This is the mathematical fixpoint that the five-step unroll of
`csum_fold_helper` is meant to reach. -/
def fold_full (c : Nat) : Nat :=
  if h : 65536 ≤ c then fold_full (c % 65536 + c / 65536) else c
termination_by c
decreasing_by omega

/-- Modelled from the spec: the kernel helper `bpf_csum_diff(from, 4, to, 4,
seed)` is not part of this repository; per the specification it performs the
standard incremental one's-complement update, i.e. it adds the complement of
the old 32-bit word and the new word to the seed, returning the wide unfolded
sum that `csum_fold_helper` then folds. -/
def bpf_csum_diff (oldW newW seed : Nat) : Nat :=
  seed + (4294967295 - oldW % 4294967296) + newW

/-- Complement of a 16-bit checksum as the eBPF code computes the seed
`!(old_csum) as u32`. -/
def not16 (x : Nat) : Nat := 65535 - x % 65536

/-- One field update of `update_csum` (folonet-ebpf/src/main.rs lines
116-139) as it affects a 16-bit checksum: diff the old and new 32-bit words
against the complemented old checksum and fold. -/
def update_csum_val (oldW newW csum : Nat) : Nat :=
  csum_fold_helper (bpf_csum_diff oldW newW (not16 csum))

/-! ## Frame view and packet rewrite (folonet-ebpf/src/main.rs)

A parsed Ethernet/IPv4/TCP-or-UDP frame after the bounds checks: MAC
addresses as 48-bit values, addresses and ports as naturals, the two
checksums, and the FIN bit that the datapath inspects.  The 32-bit word
holding the two L4 ports (`BiPort`, folonet-common lines 88-105) is source
port in the high half and destination port in the low half. -/

structure Frame where
  ethSrc : Nat
  ethDst : Nat
  ipSrc : Nat
  ipDst : Nat
  sport : Nat
  dport : Nat
  ipCsum : Nat
  l4Csum : Nat
  isFin : Bool
deriving DecidableEq, Repr

def biPort (sport dport : Nat) : Nat := sport * 65536 + dport

/-- `update_packet_by_way` (folonet-ebpf/src/main.rs lines 141-210): rewrite
the destination IP, the source IP, then both ports (one 32-bit word), each
time updating the L4 checksum incrementally (and the IP checksum for the
address fields); finally set the Ethernet source MAC to the frame's original
destination MAC and the destination MAC to the IP-to-MAC entry for the new
destination IP, falling back to the original source MAC when absent (the
fallback reads `src_addr` before the copy overwrites it). -/
def update_packet_by_way (ipMac : List (Nat × Nat)) (way : KConnection) (f : Frame) : Frame :=
  let dst := way.eto
  let src := way.efrom
  -- update dst ip
  let f1 : Frame := { f with
    ipDst := dst.ip
    l4Csum := update_csum_val f.ipDst dst.ip f.l4Csum
    ipCsum := update_csum_val f.ipDst dst.ip f.ipCsum }
  -- update src ip
  let f2 : Frame := { f1 with
    ipSrc := src.ip
    l4Csum := update_csum_val f1.ipSrc src.ip f1.l4Csum
    ipCsum := update_csum_val f1.ipSrc src.ip f1.ipCsum }
  -- update ports (both in one 32-bit word, no IP checksum update)
  let f3 : Frame := { f2 with
    sport := src.port
    dport := dst.port
    l4Csum := update_csum_val (biPort f2.sport f2.dport) (biPort src.port dst.port) f2.l4Csum }
  -- set MACs: src MAC from the current dst MAC, dst MAC from the table with
  -- fallback to the not-yet-overwritten src MAC
  let srcMac := f3.ethDst
  let dstMac :=
    match alookup ipMac dst.ip with
    | some m => m
    | none => f3.ethSrc
  { f3 with ethSrc := srcMac, ethDst := dstMac }

/-! ## Datapath state and per-packet program (folonet-ebpf/src/main.rs)

The shared maps of the kernel program.  Ring buffers are lists with a
capacity; `HashMap`s are association lists.  `Caps` carries the capacities
that matter to the modelled behaviour (the flow table bound, the IP-to-MAC
bound and the two ring bounds). -/

structure KNotification where
  localIn : KEndpoint
  localOut : KEndpoint
  conn : KConnection
deriving DecidableEq, Repr

structure DatapathState where
  connection : List (KConnection × KConnection)
  serverMap : List (KEndpoint × KEndpoint)
  ipMacMap : List (Nat × Nat)
  servicePorts : List Nat
  localIpMap : List (Nat × Nat)
  coldStartRing : List KEndpoint
  packetEvent : List KNotification
  doorbell : List (KEndpoint × Nat)
  performance : List (KEndpoint × Nat)
deriving DecidableEq, Repr

structure Caps where
  conn : Nat
  mac : Nat
  ring : Nat
  cold : Nat
deriving DecidableEq, Repr

inductive XdpAction where
  | Pass | Drop | Tx | Aborted
deriving DecidableEq, Repr

/-- Opportunistic MAC learning of `extract_way` (folonet-ebpf/src/main.rs
lines 82-114): when the source or destination IP is absent from the
IP-to-MAC table, insert the observed MAC; a failed insert propagates the
error (`none`) and the program aborts. -/
def learn_macs (cap : Nat) (m : List (Nat × Nat)) (f : Frame) : Option (List (Nat × Nat)) :=
  match (if (alookup m f.ipSrc).isSome then some m else mapInsert cap m f.ipSrc f.ethSrc) with
  | none => none
  | some m1 =>
      if (alookup m1 f.ipDst).isSome then some m1 else mapInsert cap m1 f.ipDst f.ethDst

/-- Doorbell probe target (folonet-ebpf/src/main.rs lines 374-388): check
the doorbell entry for the declared destination first; only when that key is
entirely absent is the output source endpoint consulted. -/
def target_endpoint (db : List (KEndpoint × Nat)) (dTo oFrom : KEndpoint) : Option KEndpoint :=
  match alookup db dTo with
  | some v => if v = 1 then some dTo else none
  | none =>
      match alookup db oFrom with
      | some v => if v = 1 then some oFrom else none
      | none => none

/-- Performance tick (folonet-ebpf/src/main.rs lines 390-399): set the
performance entry of the armed endpoint to 1, when there is one. -/
def doorbell_tick (db perf : List (KEndpoint × Nat)) (dTo oFrom : KEndpoint) :
    List (KEndpoint × Nat) :=
  match target_endpoint db dTo oFrom with
  | some t => ainsertReplace perf t 1
  | none => perf

/-- The doorbell target as the specification words it (the amended reading
of claim C6): the declared destination when its doorbell value is 1,
otherwise the output source when the declared destination has no doorbell
entry at all and the output source's value is 1, otherwise nothing. -/
def spec_doorbell_target (db : List (KEndpoint × Nat)) (dTo oFrom : KEndpoint) :
    Option KEndpoint :=
  if alookup db dTo = some 1 then some dTo
  else if alookup db dTo = none ∧ alookup db oFrom = some 1 then some oFrom
  else none

def pushRing {α : Type} (cap : Nat) (ring : List α) (x : α) : List α :=
  if ring.length < cap then ring ++ [x] else ring

/-- Flow-table miss handling (folonet-ebpf/src/main.rs lines 257-326): on a
miss, look up the backend; when absent, pass for ports outside the 8000-9999
band, otherwise publish the destination endpoint to the cold-start ring (when
it has space) and drop.  With a backend, pop a source port (drop when the
pool is empty), look up the local IP for the interface (drop when absent),
insert the forward entry and then the reverse entry; either failed insert
propagates `Err`, which the XDP entry turns into an abort.  Returns `some
action` for an early return and `none` to fall through to forwarding. -/
def flow_miss (caps : Caps) (st : DatapathState) (ifidx : Nat) (declared : KConnection) :
    Option XdpAction × DatapathState :=
  match alookup st.connection declared with
  | some _ => (none, st)
  | none =>
    match alookup st.serverMap declared.eto with
    | none =>
        if declared.eto.port < 8000 ∨ 9999 < declared.eto.port then (some .Pass, st)
        else
          (some .Drop,
            { st with coldStartRing := pushRing caps.cold st.coldStartRing declared.eto })
    | some toEp =>
      match st.servicePorts with
      | [] => (some .Drop, st)
      | fromPort :: restPorts =>
        let st1 := { st with servicePorts := restPorts }
        match alookup st1.localIpMap ifidx with
        | none => (some .Drop, st1)
        | some localIp =>
          let outWay : KConnection := { efrom := { ip := localIp, port := fromPort }, eto := toEp }
          match mapInsert caps.conn st1.connection declared outWay with
          | none => (some .Aborted, st1)
          | some m1 =>
            let st2 := { st1 with connection := m1 }
            match mapInsert caps.conn m1 outWay.reverse declared.reverse with
            | none => (some .Aborted, st2)
            | some m2 => (none, { st2 with connection := m2 })

/-- The per-packet program `try_xdp_firewall` (folonet-ebpf/src/main.rs
lines 226-404) after parsing: learn MACs, handle a flow-table miss,
re-read the output way, publish a FIN notification when the ring has space,
tick the doorbell probe, rewrite the frame and transmit. -/
def xdp_step (caps : Caps) (st : DatapathState) (ifidx : Nat) (f : Frame) :
    XdpAction × DatapathState × Frame :=
  let declared : KConnection :=
    { efrom := { ip := f.ipSrc, port := f.sport }, eto := { ip := f.ipDst, port := f.dport } }
  match learn_macs caps.mac st.ipMacMap f with
  | none => (.Aborted, st, f)
  | some macs =>
    let st1 := { st with ipMacMap := macs }
    match flow_miss caps st1 ifidx declared with
    | (some act, st2) => (act, st2, f)
    | (none, st2) =>
      match alookup st2.connection declared with
      | none => (.Pass, st2, f)
      | some outWay =>
        let note : KNotification :=
          { localIn := declared.eto, localOut := outWay.efrom,
            conn := { efrom := declared.efrom, eto := outWay.eto } }
        let st3 :=
          if f.isFin then
            { st2 with packetEvent := pushRing caps.ring st2.packetEvent note }
          else st2
        let st4 := { st3 with
          performance := doorbell_tick st3.doorbell st3.performance declared.eto outWay.efrom }
        (.Tx, st4, update_packet_by_way st4.ipMacMap outWay f)

/-! ## Userspace endpoint and connection keys (folonet/src/endpoint.rs)

`Endpoint` in userspace is an `Ipv4Addr` plus a host-order port with the
derived lexicographic order (address first, numerically).  `Connection`
derives `Eq` through a hand-written direction-insensitive `PartialEq` and a
`Hash` that feeds the two endpoints to the hasher in descending order, so
the hash stream is also direction-insensitive. -/

structure Endpoint where
  ip : Nat
  port : Nat
deriving DecidableEq, Repr

/-- Derived Rust `Ord` on `Endpoint { ip, port }`: lexicographic, address
first. -/
def Endpoint.gtb (a b : Endpoint) : Bool :=
  if a.ip = b.ip then decide (b.port < a.port) else decide (b.ip < a.ip)

structure Connection where
  efrom : Endpoint
  eto : Endpoint
deriving DecidableEq, Repr

/-- `impl PartialEq for Connection` (endpoint.rs lines 120-125): equal when
the endpoint pairs agree in either direction. -/
def connEq (x y : Connection) : Bool :=
  (decide (x.efrom = y.efrom) && decide (x.eto = y.eto)) ||
  (decide (x.eto = y.efrom) && decide (x.efrom = y.eto))

/-- `impl Hash for Connection` (endpoint.rs lines 127-139): the pair of
endpoints fed to the hasher, larger endpoint first; two keys feeding the
same pair hash identically under any hasher. -/
def connHashSeq (x : Connection) : Endpoint × Endpoint :=
  if Endpoint.gtb x.efrom x.eto then (x.efrom, x.eto) else (x.eto, x.efrom)

/-- Lookup in a `HashMap<Connection, _>`, which compares keys with the
direction-insensitive `connEq`. -/
def connLookup {β : Type} : List (Connection × β) → Connection → Option β
  | [], _ => none
  | (k, v) :: rest, key => if connEq k key then some v else connLookup rest key

/-- Removal from a `HashMap<Connection, _>`: returns the removed value (as
`HashMap::remove` does) and the remaining entries. -/
def connRemove {β : Type} : List (Connection × β) → Connection → Option β × List (Connection × β)
  | [], _ => (none, [])
  | (k, v) :: rest, key =>
      if connEq k key then (some v, rest)
      else
        let r := connRemove rest key
        (r.1, (k, v) :: r.2)

/-! ## Close handling (folonet/src/state/mod.rs lines 116-138)

`ConnectionStateMgr::handle_message(CloseMsg)` performs, in program order:
remove the flow's FSM from `state_map`, remove the recorded port from
`port_map` and push it back to the service-port pool when present, remove
the recorded pair of kernel flow keys from `connection_msp` and delete both
flow-table entries when present.  `CloseEffect` records the externally
visible side effects in the order they are issued. -/

inductive CloseEffect where
  | removeFsm (c : Connection)
  | returnPort (p : Nat)
  | deleteFlow (u : KConnection)
deriving DecidableEq, Repr

structure MgrState where
  state_map : List (Connection × Nat)
  port_map : List (Connection × Nat)
  connection_msp : List (Connection × (KConnection × KConnection))
deriving DecidableEq, Repr

def handle_close (st : MgrState) (conn : Connection) : MgrState × List CloseEffect :=
  let sm := (connRemove st.state_map conn).2
  let portOpt := (connRemove st.port_map conn).1
  let pm := (connRemove st.port_map conn).2
  let portEff : List CloseEffect :=
    match portOpt with
    | some p => [.returnPort p]
    | none => []
  let ucOpt := (connRemove st.connection_msp conn).1
  let cm := (connRemove st.connection_msp conn).2
  let flowEff : List CloseEffect :=
    match ucOpt with
    | some u => [.deleteFlow u.1, .deleteFlow u.2]
    | none => []
  ({ state_map := sm, port_map := pm, connection_msp := cm },
    .removeFsm conn :: (portEff ++ flowEff))

/-! ## Cold-start controller (folonet/src/main.rs lines 201-283)

Per endpoint consumed from the cold-start ring the controller calls the
external `start_server`; when inactive it returns, otherwise it installs the
backend into the server map and registers a per-service worker built with
`MsgWorker::new` -- unconditionally, with no lookup of an existing entry.
Worker identity is modelled with a fresh-id counter: `HashMap::insert`
replaces the previous worker for the key. -/

structure CtrlState where
  serverMap : List (Endpoint × Endpoint)
  workerMap : List (Endpoint × Nat)
  nextWorkerId : Nat
deriving DecidableEq, Repr

def process_cold_start (startRes : Option Endpoint) (e : Endpoint) (st : CtrlState) : CtrlState :=
  match startRes with
  | none => st
  | some backend =>
      { serverMap := ainsertReplace st.serverMap e backend
        workerMap := ainsertReplace st.workerMap e st.nextWorkerId
        nextWorkerId := st.nextWorkerId + 1 }

/-! ## Idle monitor (folonet/src/main.rs lines 237-276)

Each loop iteration arms the doorbell, sleeps one window, disarms, and reads
the performance counter; a failed read or the value 0 removes the backend
entry and the worker and exits, otherwise the counter is cleared and the
next window begins.  The list holds one read result per armed window
(`none` for a failed read); the result counts the armed windows elapsed when
teardown happens, `none` when the trace ends without teardown. -/

def idle_monitor : List (Option Nat) → Option Nat
  | [] => none
  | cnt :: rest =>
      match cnt with
      | none => some 1
      | some v => if v = 0 then some 1 else (idle_monitor rest).map (· + 1)

/-- A sample keeps the backend alive when the read succeeded with a nonzero
value. -/
def liveSample : Option Nat → Bool
  | none => false
  | some v => decide (v ≠ 0)

/-! ## Theorems -/

/-- C2: the per-peer TCP FSM starts in `Closed`, a server-side construction
consumes `PassiveOpen` and yields `Listen`, and for every state and input the
rust_fsm `consume` step agrees with the step induced by the transition list
of the specification: it moves along a listed arrow and leaves the state
unchanged for every pair not in the list. -/
theorem c2_tcp_fsm_transitions :
    tcp_fsm_new true = TCPState.Listen ∧ tcp_fsm_new false = TCPState.Closed ∧
    ∀ s i, TCP.consume s i = claim_step s i := by
  refine ⟨rfl, rfl, ?_⟩
  intro s i
  cases s <;> cases i <;> rfl

/-- C3 counterexample: the receive side is not the mirror of the send side.
For a SYN-plus-ACK packet with no remembered `SentSpecial`, the mirrored
rules of the claim emit `ReceiveSynAck`, but `check_receive_input` emits only
`ReceiveSyn`. -/
theorem c3_receive_not_symmetric_cex :
    check_receive_input none
        { syn := true, fin := false, ack := true, ackSeq := 0, seq := 0 } =
      [TCPInput.ReceiveSyn] ∧
    claim_receive_input_symmetric none
        { syn := true, fin := false, ack := true, ackSeq := 0, seq := 0 } =
      [TCPInput.ReceiveSynAck] ∧
    TCPInput.ReceiveSynAck ∉ check_receive_input none
        { syn := true, fin := false, ack := true, ackSeq := 0, seq := 0 } := by
  refine ⟨rfl, rfl, ?_⟩
  decide

/-- C3 amended: the send side derives inputs exactly as the claim states,
and the receive side follows the amended rules: with ACK set a remembered
FIN(s) and ack_seq = s+1 yield `RecvAckForFin`; a remembered SYN(s) with
ack_seq = s+1 yields `ReceiveSynAck` when the packet also carries SYN and
`RecvAckForSyn` otherwise; every FIN packet yields `ReceiveFin` and every
SYN packet yields `ReceiveSyn`, emitted in the order ACK-derived, FIN, SYN
(the send side emits ACK-derived, SYN-derived, FIN). -/
theorem c3_input_derivation_amended :
    (∀ received p, check_send_input received p = spec_send_input received p) ∧
    (∀ sent p, check_receive_input sent p = amended_receive_input sent p) := by
  constructor
  · intro received p
    rcases received with _ | sp
    · cases hs : p.syn <;> cases ha : p.ack <;> cases hf : p.fin <;>
        simp [check_send_input, spec_send_input, hs, ha, hf]
    · rcases sp with s | s <;>
        cases hs : p.syn <;> cases ha : p.ack <;> cases hf : p.fin <;>
          by_cases hq : (s + 1) % 4294967296 = p.ackSeq <;>
            simp [check_send_input, spec_send_input, hs, ha, hf, hq]
  · intro sent p
    rcases sent with _ | sp
    · cases hs : p.syn <;> cases ha : p.ack <;> cases hf : p.fin <;>
        simp [check_receive_input, amended_receive_input, hs, ha, hf]
    · rcases sp with s | s <;>
        cases hs : p.syn <;> cases ha : p.ack <;> cases hf : p.fin <;>
          by_cases hq : (s + 1) % 4294967296 = p.ackSeq <;>
            simp [check_receive_input, amended_receive_input, hs, ha, hf, hq]

/-- C10: the userspace `Connection` key is direction-insensitive: swapping
the endpoints gives an equal key, the pair fed to the hasher is identical,
and a lookup keyed by `connEq` resolves both directions to the same entry
of the state map. -/
theorem c10_connection_symmetric :
    (∀ a b : Endpoint, connEq { efrom := a, eto := b } { efrom := b, eto := a } = true) ∧
    (∀ a b : Endpoint,
      connHashSeq { efrom := a, eto := b } = connHashSeq { efrom := b, eto := a }) ∧
    (∀ (m : List (Connection × Nat)) (a b : Endpoint),
      connLookup m { efrom := a, eto := b } = connLookup m { efrom := b, eto := a }) := by
  refine ⟨?_, ?_, ?_⟩
  · intro a b
    simp [connEq]
  · intro a b
    obtain ⟨ai, ap⟩ := a
    obtain ⟨bi, bp⟩ := b
    simp only [connHashSeq, Endpoint.gtb]
    by_cases h : ai = bi
    · subst h
      by_cases hp : bp < ap
      · have hq : ¬ ap < bp := by omega
        simp [hp, hq]
      · by_cases hq : ap < bp
        · simp [hp, hq]
        · have : ap = bp := by omega
          subst this
          simp [hp, hq]
    · have h2 : ¬ bi = ai := fun hh => h hh.symm
      by_cases hlt : bi < ai
      · have hgt : ¬ ai < bi := by omega
        simp [h, h2, hlt, hgt]
      · have hgt : ai < bi := by omega
        simp [h, h2, hlt, hgt]
  · intro m a b
    induction m with
    | nil => rfl
    | cons hd tl ih =>
        have hsym : connEq hd.1 { efrom := a, eto := b } =
            connEq hd.1 { efrom := b, eto := a } := by
          simp only [connEq]
          by_cases h1 : hd.1.efrom = a <;> by_cases h2 : hd.1.eto = b <;>
            by_cases h3 : hd.1.eto = a <;> by_cases h4 : hd.1.efrom = b <;>
              simp [h1, h2, h3, h4]
        cases hd with
        | mk k v =>
            simp only [connLookup] at *
            rw [hsym]
            by_cases hk : connEq k { efrom := b, eto := a } = true
            · simp [hk]
            · simp only [Bool.not_eq_true] at hk
              simp [hk, ih]

/-- C6 counterexample: with the declared destination present in the doorbell
table with value 0 and the output source armed with value 1, the OR of the
claim holds, yet the datapath consults only the first key and sets no
performance entry: the tick leaves the performance table unchanged. -/
theorem c6_doorbell_or_cex :
    alookup [(KEndpoint.mk 1 1, 0), (KEndpoint.mk 2 2, 1)] (KEndpoint.mk 2 2) = some 1 ∧
    target_endpoint [(KEndpoint.mk 1 1, 0), (KEndpoint.mk 2 2, 1)]
        (KEndpoint.mk 1 1) (KEndpoint.mk 2 2) = none ∧
    doorbell_tick [(KEndpoint.mk 1 1, 0), (KEndpoint.mk 2 2, 1)] []
        (KEndpoint.mk 1 1) (KEndpoint.mk 2 2) = [] := by
  decide

/-- C6 amended: the doorbell tick arms the declared destination when its
doorbell value is 1; the output source is consulted only when the declared
destination has no doorbell entry at all, and is armed when its value is 1;
a declared destination present with any other value suppresses the tick.
The source tick agrees with this else-if reading pointwise, and the
performance table is updated to 1 exactly for the so-chosen endpoint. -/
theorem c6_doorbell_tick_amended :
    (∀ db dTo oFrom, target_endpoint db dTo oFrom = spec_doorbell_target db dTo oFrom) ∧
    (∀ db perf dTo oFrom,
      doorbell_tick db perf dTo oFrom =
        match spec_doorbell_target db dTo oFrom with
        | some t => ainsertReplace perf t 1
        | none => perf) := by
  have key : ∀ db dTo oFrom, target_endpoint db dTo oFrom = spec_doorbell_target db dTo oFrom := by
    intro db dTo oFrom
    simp only [target_endpoint, spec_doorbell_target]
    cases h1 : alookup db dTo with
    | some v =>
        by_cases hv : v = 1
        · subst hv
          simp
        · simp [hv, Option.some_inj.ne.mpr hv]
    | none =>
        cases h2 : alookup db oFrom with
        | some w =>
            by_cases hw : w = 1
            · subst hw
              simp
            · simp [hw, Option.some_inj.ne.mpr hw]
        | none => simp
  refine ⟨key, ?_⟩
  intro db perf dTo oFrom
  simp only [doorbell_tick, key]

/-- C4 counterexample: a single armed sample window whose performance read
returns 0 already tears the backend down (the idle monitor exits after
window 1), contradicting both the two-consecutive-window requirement and
the never-after-a-single-window clause of the claim. -/
theorem c4_single_window_teardown_cex :
    idle_monitor [some 0] = some 1 ∧ idle_monitor [none] = some 1 := by
  decide

/-- C4 amended: the backend is torn down immediately after the first armed
sample window whose performance read fails or returns 0: with a prefix of
live windows (successful nonzero reads) followed by one empty window, the
monitor exits after exactly prefix-length plus one armed windows, whatever
samples would have followed. -/
theorem c4_idle_teardown_amended (xs : List (Option Nat)) (s : Option Nat)
    (rest : List (Option Nat)) (hlive : xs.all liveSample = true)
    (hdead : liveSample s = false) :
    idle_monitor (xs ++ s :: rest) = some (xs.length + 1) := by
  induction xs with
  | nil =>
      cases s with
      | none => rfl
      | some v =>
          have hv : v = 0 := by
            by_contra hne
            simp [liveSample, hne] at hdead
          subst hv
          rfl
  | cons hd tl ih =>
      simp only [List.all_cons, Bool.and_eq_true] at hlive
      have hhd := hlive.1
      cases hd with
      | none => simp [liveSample] at hhd
      | some v =>
          have hv : v ≠ 0 := by
            by_contra hne
            simp [liveSample, hne] at hhd
          rw [List.cons_append]
          simp only [idle_monitor]
          rw [if_neg hv, ih hlive.2]
          simp

/-- C4 amended, witness: two windows, the first live with value 2, the
second reading 0: teardown after exactly two armed windows. -/
theorem c4_idle_teardown_amended_witness :
    idle_monitor ([some 2] ++ some 0 :: []) = some ([some 2].length + 1) :=
  c4_idle_teardown_amended [some 2] (some 0) [] (by decide) (by decide)

/-- C5 counterexample: an endpoint already installed (backend present,
worker 0 registered) is consumed again from the cold-start ring with an
active start-server answer; the controller does not short-circuit: it
creates a fresh worker (id 1) and replaces the registration, so the worker
registration does not stay unchanged. -/
theorem c5_cold_start_not_idempotent_cex :
    alookup (CtrlState.mk [(Endpoint.mk 10 8080, Endpoint.mk 20 80)]
        [(Endpoint.mk 10 8080, 0)] 1).serverMap (Endpoint.mk 10 8080) =
      some (Endpoint.mk 20 80) ∧
    process_cold_start (some (Endpoint.mk 20 80)) (Endpoint.mk 10 8080)
        (CtrlState.mk [(Endpoint.mk 10 8080, Endpoint.mk 20 80)]
          [(Endpoint.mk 10 8080, 0)] 1) =
      CtrlState.mk [(Endpoint.mk 10 8080, Endpoint.mk 20 80)]
        [(Endpoint.mk 10 8080, 1)] 2 ∧
    alookup [(Endpoint.mk 10 8080, 1)] (Endpoint.mk 10 8080) ≠ some 0 := by
  decide

/-- C5 amended: duplicate cold-start handling is not idempotent.  Consuming
an endpoint whose backend entry is already installed, with an active
start-server answer, re-inserts the backend entry and replaces the
registered worker with a freshly created one: afterwards the key maps to the
new worker id, which differs from every previously issued id, so the worker
registration changes even though exactly one worker stays registered per
key. -/
theorem c5_duplicate_cold_start_amended (st : CtrlState) (e backend : Endpoint) (w : Nat)
    (hdup : alookup st.serverMap e = some backend)
    (hw : alookup st.workerMap e = some w) (hfresh : w < st.nextWorkerId) :
    alookup (process_cold_start (some backend) e st).workerMap e = some st.nextWorkerId ∧
    alookup (process_cold_start (some backend) e st).workerMap e ≠ some w ∧
    alookup (process_cold_start (some backend) e st).serverMap e = some backend := by
  have hlookup : ∀ (m : List (Endpoint × Nat)) (k : Endpoint) (v : Nat),
      alookup (ainsertReplace m k v) k = some v := by
    intro m k v
    induction m with
    | nil => simp [ainsertReplace, alookup]
    | cons hd tl ih =>
        by_cases hk : hd.1 = k
        · simp [ainsertReplace, hk, alookup]
        · simp [ainsertReplace, hk, alookup, ih]
  have hlookupE : ∀ (m : List (Endpoint × Endpoint)) (k v : Endpoint),
      alookup (ainsertReplace m k v) k = some v := by
    intro m k v
    induction m with
    | nil => simp [ainsertReplace, alookup]
    | cons hd tl ih =>
        by_cases hk : hd.1 = k
        · simp [ainsertReplace, hk, alookup]
        · simp [ainsertReplace, hk, alookup, ih]
  refine ⟨?_, ?_, ?_⟩
  · simp only [process_cold_start]
    exact hlookup st.workerMap e st.nextWorkerId
  · simp only [process_cold_start]
    rw [hlookup st.workerMap e st.nextWorkerId]
    intro hcontra
    have : st.nextWorkerId = w := Option.some_inj.mp hcontra
    omega
  · simp only [process_cold_start]
    exact hlookupE st.serverMap e backend

/-- C5 amended, witness: the concrete duplicate scenario of the
counterexample satisfies the hypotheses, and the conclusions evaluate. -/
theorem c5_duplicate_cold_start_amended_witness :
    alookup (process_cold_start (some (Endpoint.mk 20 80)) (Endpoint.mk 10 8080)
        (CtrlState.mk [(Endpoint.mk 10 8080, Endpoint.mk 20 80)]
          [(Endpoint.mk 10 8080, 0)] 1)).workerMap (Endpoint.mk 10 8080) = some 1 ∧
    alookup (process_cold_start (some (Endpoint.mk 20 80)) (Endpoint.mk 10 8080)
        (CtrlState.mk [(Endpoint.mk 10 8080, Endpoint.mk 20 80)]
          [(Endpoint.mk 10 8080, 0)] 1)).workerMap (Endpoint.mk 10 8080) ≠ some 0 ∧
    alookup (process_cold_start (some (Endpoint.mk 20 80)) (Endpoint.mk 10 8080)
        (CtrlState.mk [(Endpoint.mk 10 8080, Endpoint.mk 20 80)]
          [(Endpoint.mk 10 8080, 0)] 1)).serverMap (Endpoint.mk 10 8080) =
      some (Endpoint.mk 20 80) :=
  c5_duplicate_cold_start_amended
    (CtrlState.mk [(Endpoint.mk 10 8080, Endpoint.mk 20 80)] [(Endpoint.mk 10 8080, 0)] 1)
    (Endpoint.mk 10 8080) (Endpoint.mk 20 80) 0 (by decide) (by decide) (by decide)

/-- C1: when the forward flow entry inserts but the reverse insert fails
(flow-table capacity 1 here), the program returns abort with the forward
entry still installed and the reverse entry absent -- there is no rollback,
so the table is left holding exactly one entry of the pair, violating the
both-or-neither property the claim states.  The run: packet (1,40000) to
(2,8080) on interface 7, backend (3,80) installed, local IP 4, pool head
10000, so declared maps to out = ((4,10000),(3,80)). -/
theorem c1_flow_insert_rollback_missing :
    (xdp_step (Caps.mk 1 1024 10 10)
        (DatapathState.mk [] [(KEndpoint.mk 2 8080, KEndpoint.mk 3 80)]
          [(1, 11), (2, 22)] [10000] [(7, 4)] [] [] [] [])
        7 (Frame.mk 111 222 1 2 40000 8080 0 0 false)).1 = XdpAction.Aborted ∧
    alookup (xdp_step (Caps.mk 1 1024 10 10)
        (DatapathState.mk [] [(KEndpoint.mk 2 8080, KEndpoint.mk 3 80)]
          [(1, 11), (2, 22)] [10000] [(7, 4)] [] [] [] [])
        7 (Frame.mk 111 222 1 2 40000 8080 0 0 false)).2.1.connection
        (KConnection.mk (KEndpoint.mk 1 40000) (KEndpoint.mk 2 8080)) =
      some (KConnection.mk (KEndpoint.mk 4 10000) (KEndpoint.mk 3 80)) ∧
    alookup (xdp_step (Caps.mk 1 1024 10 10)
        (DatapathState.mk [] [(KEndpoint.mk 2 8080, KEndpoint.mk 3 80)]
          [(1, 11), (2, 22)] [10000] [(7, 4)] [] [] [] [])
        7 (Frame.mk 111 222 1 2 40000 8080 0 0 false)).2.1.connection
        (KConnection.mk (KEndpoint.mk 3 80) (KEndpoint.mk 4 10000)) = none := by
  decide

/-- C8: when the close handler runs for a flow whose port and kernel flow
keys are recorded, the emitted side effects are, in this order: remove the
FSM entry, return the allocated source port to the pool, delete the forward
flow-table entry, delete the reverse flow-table entry. -/
theorem c8_close_effect_order (st : MgrState) (conn : Connection) (p : Nat)
    (u1 u2 : KConnection)
    (hp : (connRemove st.port_map conn).1 = some p)
    (hu : (connRemove st.connection_msp conn).1 = some (u1, u2)) :
    (handle_close st conn).2 =
      [CloseEffect.removeFsm conn, CloseEffect.returnPort p,
        CloseEffect.deleteFlow u1, CloseEffect.deleteFlow u2] := by
  simp [handle_close, hp, hu]

/-- C8 witness: a concrete manager state with the flow, its port 10000 and
its kernel flow-key pair recorded. -/
theorem c8_close_effect_order_witness :
    (handle_close
        (MgrState.mk [(Connection.mk (Endpoint.mk 1 2) (Endpoint.mk 3 4), 7)]
          [(Connection.mk (Endpoint.mk 1 2) (Endpoint.mk 3 4), 10000)]
          [(Connection.mk (Endpoint.mk 1 2) (Endpoint.mk 3 4),
            (KConnection.mk (KEndpoint.mk 5 6) (KEndpoint.mk 7 8),
             KConnection.mk (KEndpoint.mk 7 8) (KEndpoint.mk 5 6)))])
        (Connection.mk (Endpoint.mk 1 2) (Endpoint.mk 3 4))).2 =
      [CloseEffect.removeFsm (Connection.mk (Endpoint.mk 1 2) (Endpoint.mk 3 4)),
        CloseEffect.returnPort 10000,
        CloseEffect.deleteFlow (KConnection.mk (KEndpoint.mk 5 6) (KEndpoint.mk 7 8)),
        CloseEffect.deleteFlow (KConnection.mk (KEndpoint.mk 7 8) (KEndpoint.mk 5 6))] :=
  c8_close_effect_order
    (MgrState.mk [(Connection.mk (Endpoint.mk 1 2) (Endpoint.mk 3 4), 7)]
      [(Connection.mk (Endpoint.mk 1 2) (Endpoint.mk 3 4), 10000)]
      [(Connection.mk (Endpoint.mk 1 2) (Endpoint.mk 3 4),
        (KConnection.mk (KEndpoint.mk 5 6) (KEndpoint.mk 7 8),
         KConnection.mk (KEndpoint.mk 7 8) (KEndpoint.mk 5 6)))])
    (Connection.mk (Endpoint.mk 1 2) (Endpoint.mk 3 4)) 10000
    (KConnection.mk (KEndpoint.mk 5 6) (KEndpoint.mk 7 8))
    (KConnection.mk (KEndpoint.mk 7 8) (KEndpoint.mk 5 6))
    (by decide) (by decide)

/-- C7: on a flow-table miss with no backend entry for the destination
endpoint (and the MAC-learning lookups already satisfied), the datapath
drops and publishes the destination endpoint to the cold-start ring (when
the ring has space) exactly for destination ports in the 8000-9999 band,
and passes with the cold-start ring untouched for every port outside it. -/
theorem c7_cold_start_band (caps : Caps) (st : DatapathState) (ifidx : Nat) (f : Frame)
    (hs : (alookup st.ipMacMap f.ipSrc).isSome = true)
    (hd : (alookup st.ipMacMap f.ipDst).isSome = true)
    (hconn : alookup st.connection
        (KConnection.mk (KEndpoint.mk f.ipSrc f.sport) (KEndpoint.mk f.ipDst f.dport)) = none)
    (hserver : alookup st.serverMap (KEndpoint.mk f.ipDst f.dport) = none) :
    (xdp_step caps st ifidx f).1 =
      (if 8000 ≤ f.dport ∧ f.dport ≤ 9999 then XdpAction.Drop else XdpAction.Pass) ∧
    (xdp_step caps st ifidx f).2.1.coldStartRing =
      (if 8000 ≤ f.dport ∧ f.dport ≤ 9999 then
          pushRing caps.cold st.coldStartRing (KEndpoint.mk f.ipDst f.dport)
        else st.coldStartRing) := by
  have hlm : learn_macs caps.mac st.ipMacMap f = some st.ipMacMap := by
    simp [learn_macs, hs, hd]
  by_cases hband : 8000 ≤ f.dport ∧ f.dport ≤ 9999
  · have hneg : ¬ (f.dport < 8000 ∨ 9999 < f.dport) := by omega
    constructor <;> simp [xdp_step, hlm, flow_miss, hconn, hserver, hneg, hband]
  · have hpos : f.dport < 8000 ∨ 9999 < f.dport := by omega
    constructor <;> simp [xdp_step, hlm, flow_miss, hconn, hserver, hpos, hband]

/-- C7 witness: port 8080 is in the band (empty flow and backend tables,
ring with space): drop and the endpoint is published; and the same state
with port 22 passes with the ring untouched is covered by a second
application. -/
theorem c7_cold_start_band_witness :
    ((xdp_step (Caps.mk 4 4 4 4)
        (DatapathState.mk [] [] [(1, 11), (2, 22)] [] [] [] [] [] [])
        7 (Frame.mk 111 222 1 2 40000 8080 0 0 false)).1 =
      (if 8000 ≤ (8080 : Nat) ∧ (8080 : Nat) ≤ 9999 then XdpAction.Drop else XdpAction.Pass) ∧
    (xdp_step (Caps.mk 4 4 4 4)
        (DatapathState.mk [] [] [(1, 11), (2, 22)] [] [] [] [] [] [])
        7 (Frame.mk 111 222 1 2 40000 8080 0 0 false)).2.1.coldStartRing =
      (if 8000 ≤ (8080 : Nat) ∧ (8080 : Nat) ≤ 9999 then
          pushRing 4 [] (KEndpoint.mk 2 8080)
        else [])) :=
  c7_cold_start_band (Caps.mk 4 4 4 4)
    (DatapathState.mk [] [] [(1, 11), (2, 22)] [] [] [] [] [] [])
    7 (Frame.mk 111 222 1 2 40000 8080 0 0 false)
    (by decide) (by decide) (by decide) (by decide)

/-- One fold step keeps a linear bound: a value below 65536 times m folds to
below 65536 plus m. -/
theorem fold_once_lt {c m : Nat} (h : c < 65536 * m) : fold_once c < 65536 + m := by
  unfold fold_once
  split <;> omega

/-- A value already folded into 16 bits is a fixpoint of the full fold. -/
theorem fold_full_of_lt {c : Nat} (h : c < 65536) : fold_full c = c := by
  rw [fold_full]
  exact dif_neg (by omega)

/-- One bounded fold step does not change the full fold. -/
theorem fold_full_fold_once (c : Nat) : fold_full (fold_once c) = fold_full c := by
  unfold fold_once
  split
  · rename_i h
    conv_rhs => rw [fold_full]
    rw [dif_pos h]
  · rfl

/-- Five unrolled fold steps take any 64-bit value below 65536. -/
theorem fivefold_lt {c : Nat} (hc : c < 18446744073709551616) :
    fold_once (fold_once (fold_once (fold_once (fold_once c)))) < 65536 := by
  have h1 : fold_once c < 65536 + 281474976710656 := fold_once_lt (by omega)
  have h2 : fold_once (fold_once c) < 65536 + 4294967297 := fold_once_lt (by omega)
  have h3 : fold_once (fold_once (fold_once c)) < 65536 + 65538 := fold_once_lt (by omega)
  have h4 : fold_once (fold_once (fold_once (fold_once c))) < 65536 + 3 :=
    fold_once_lt (by omega)
  generalize hgen : fold_once (fold_once (fold_once (fold_once c))) = d at h4 ⊢
  unfold fold_once
  split <;> omega

/-- The five-step unroll of `csum_fold_helper` computes the complement of
the full one's-complement fold for every 64-bit input. -/
theorem csum_fold_helper_eq {c : Nat} (hc : c < 18446744073709551616) :
    csum_fold_helper c = 65535 - fold_full c := by
  have h5 := fivefold_lt hc
  have heq : fold_once (fold_once (fold_once (fold_once (fold_once c)))) = fold_full c := by
    have hstep : fold_full (fold_once (fold_once (fold_once (fold_once (fold_once c))))) =
        fold_full c := by
      rw [fold_full_fold_once, fold_full_fold_once, fold_full_fold_once,
        fold_full_fold_once, fold_full_fold_once]
    rw [← hstep, fold_full_of_lt h5]
  simp only [csum_fold_helper]
  rw [heq, Nat.mod_eq_of_lt (heq ▸ h5)]

/-- C9: for every frame whose declared tuple maps to output tuple `way`, the
rewritten frame carries the output IPv4 source and destination addresses and
L4 ports, its Ethernet source MAC is the original destination MAC and its
destination MAC is the IP-to-MAC entry of the new destination IP with
fallback to the original source MAC; the IPv4 checksum is the composition
of the two incremental address updates and the L4 checksum the composition
of the two address updates and the port-word update, both through the
incremental helper whose fixed five-step bounded fold agrees with the full
one's-complement fold on every 64-bit value. -/
theorem c9_packet_rewrite (ipMac : List (Nat × Nat)) (way : KConnection) (f : Frame)
    (c : Nat) (hc : c < 18446744073709551616) :
    ((update_packet_by_way ipMac way f).ipSrc = way.efrom.ip ∧
      (update_packet_by_way ipMac way f).ipDst = way.eto.ip ∧
      (update_packet_by_way ipMac way f).sport = way.efrom.port ∧
      (update_packet_by_way ipMac way f).dport = way.eto.port ∧
      (update_packet_by_way ipMac way f).ethSrc = f.ethDst ∧
      (update_packet_by_way ipMac way f).ethDst = (alookup ipMac way.eto.ip).getD f.ethSrc ∧
      (update_packet_by_way ipMac way f).ipCsum =
        update_csum_val f.ipSrc way.efrom.ip
          (update_csum_val f.ipDst way.eto.ip f.ipCsum) ∧
      (update_packet_by_way ipMac way f).l4Csum =
        update_csum_val (biPort f.sport f.dport) (biPort way.efrom.port way.eto.port)
          (update_csum_val f.ipSrc way.efrom.ip
            (update_csum_val f.ipDst way.eto.ip f.l4Csum))) ∧
    csum_fold_helper c = 65535 - fold_full c := by
  refine ⟨⟨rfl, rfl, rfl, rfl, rfl, ?_, rfl, rfl⟩, csum_fold_helper_eq hc⟩
  simp only [update_packet_by_way]
  cases alookup ipMac way.eto.ip <;> rfl

/-- C9 witness: a concrete frame, output way, empty MAC table and the 64-bit
value 70000 instantiate the rewrite contract and the fold equation. -/
theorem c9_packet_rewrite_witness :
    ((update_packet_by_way [] (KConnection.mk (KEndpoint.mk 1 2) (KEndpoint.mk 3 4))
          (Frame.mk 111 222 5 6 7 8 9 10 false)).ipSrc =
        (KConnection.mk (KEndpoint.mk 1 2) (KEndpoint.mk 3 4)).efrom.ip ∧
      (update_packet_by_way [] (KConnection.mk (KEndpoint.mk 1 2) (KEndpoint.mk 3 4))
          (Frame.mk 111 222 5 6 7 8 9 10 false)).ipDst =
        (KConnection.mk (KEndpoint.mk 1 2) (KEndpoint.mk 3 4)).eto.ip ∧
      (update_packet_by_way [] (KConnection.mk (KEndpoint.mk 1 2) (KEndpoint.mk 3 4))
          (Frame.mk 111 222 5 6 7 8 9 10 false)).sport =
        (KConnection.mk (KEndpoint.mk 1 2) (KEndpoint.mk 3 4)).efrom.port ∧
      (update_packet_by_way [] (KConnection.mk (KEndpoint.mk 1 2) (KEndpoint.mk 3 4))
          (Frame.mk 111 222 5 6 7 8 9 10 false)).dport =
        (KConnection.mk (KEndpoint.mk 1 2) (KEndpoint.mk 3 4)).eto.port ∧
      (update_packet_by_way [] (KConnection.mk (KEndpoint.mk 1 2) (KEndpoint.mk 3 4))
          (Frame.mk 111 222 5 6 7 8 9 10 false)).ethSrc = 222 ∧
      (update_packet_by_way [] (KConnection.mk (KEndpoint.mk 1 2) (KEndpoint.mk 3 4))
          (Frame.mk 111 222 5 6 7 8 9 10 false)).ethDst =
        (alookup [] (KConnection.mk (KEndpoint.mk 1 2) (KEndpoint.mk 3 4)).eto.ip).getD 111 ∧
      (update_packet_by_way [] (KConnection.mk (KEndpoint.mk 1 2) (KEndpoint.mk 3 4))
          (Frame.mk 111 222 5 6 7 8 9 10 false)).ipCsum =
        update_csum_val 5 1 (update_csum_val 6 3 9) ∧
      (update_packet_by_way [] (KConnection.mk (KEndpoint.mk 1 2) (KEndpoint.mk 3 4))
          (Frame.mk 111 222 5 6 7 8 9 10 false)).l4Csum =
        update_csum_val (biPort 7 8) (biPort 2 4)
          (update_csum_val 5 1 (update_csum_val 6 3 10))) ∧
    csum_fold_helper 70000 = 65535 - fold_full 70000 :=
  c9_packet_rewrite [] (KConnection.mk (KEndpoint.mk 1 2) (KEndpoint.mk 3 4))
    (Frame.mk 111 222 5 6 7 8 9 10 false) 70000 (by decide)

end Folonet
